import Mathlib

/-!
Shallow embedding of the `pywam_gui_tool` application (files `app.py`,
`settings.py`, `gui.py`) and proofs about the behaviour its specification
describes.  Python's dynamically typed values are modelled by small inductive
types; functions that can raise return `Except` or carry an explicit error
component; object attributes that may not yet be assigned are modelled by
`Option` (with `none` meaning "attribute missing", so that access raises
`AttributeError`).
-/

/-- A dynamically typed Python value, as handled by the validators in
`app.py` (strings, ints, bools, lists and tuples).  In Python `bool` is a
subclass of `int`, which `pyIsInt` reflects. -/
inductive PyVal where
  | vstr (s : String)
  | vint (n : Int)
  | vbool (b : Bool)
  | vlist (xs : List PyVal)
  | vtuple (xs : List PyVal)
  | vnone
deriving Repr

/-- Python `v == lit` for a string literal `lit`: only strings can compare
equal to a string. -/
def PyVal.eqStr : PyVal → String → Bool
  | .vstr s, t => s = t
  | _, _ => false

/-- Embeds `isinstance(v, str)`. -/
def PyVal.isStr : PyVal → Bool
  | .vstr _ => true
  | _ => false

/-- Embeds `isinstance(v, int)`.  True also of booleans, since `bool` is a subclass
of `int` in Python. -/
def pyIsInt : PyVal → Bool
  | .vint _ => true
  | .vbool _ => true
  | _ => false

/-- Embeds `isinstance(v, bool)`. -/
def pyIsBool : PyVal → Bool
  | .vbool _ => true
  | _ => false

/-- Embeds `isinstance(v, list)`. -/
def PyVal.isList : PyVal → Bool
  | .vlist _ => true
  | _ => false

/-- Python truthiness: empty strings, zero, `False`, empty containers and
`None` are falsy. -/
def pyTruthy : PyVal → Bool
  | .vstr s => s ≠ ""
  | .vint n => n ≠ 0
  | .vbool b => b
  | .vlist xs => !xs.isEmpty
  | .vtuple xs => !xs.isEmpty
  | .vnone => false

/-- Python `v > bound` for a value already known to be an `int` (booleans
count as 1/0); on other values the comparison never happens in the source. -/
def pyGtInt (v : PyVal) (bound : Int) : Bool :=
  match v with
  | .vint n => bound < n
  | .vbool b => bound < (if b then (1 : Int) else 0)
  | _ => false

/-- Embeds `App.validate_api_call_arguments` (`app.py`): validation of one argument
triple `(name, value, type)`.  Each `raise` is an `Except.error` carrying the
source's message, checks in source order. -/
def validate_api_call_arguments (args : PyVal) : Except String Unit :=
  match args with
  | .vtuple elems =>
    match elems with
    | [name, value, vtype] =>
      if !name.isStr then .error "Argument name is not a string."
      else if !pyTruthy name then .error "Argument name cannot be empty."
      else if !vtype.isStr then .error "Argument type is not a string."
      else if !(vtype.eqStr "str" || vtype.eqStr "dec" || vtype.eqStr "cdata"
                || vtype.eqStr "dec_arr") then
        .error "Argument type not supported."
      else if !(value.isStr || pyIsInt value || value.isList) then
        .error "Argument value is not a string, int, or list."
      else if vtype.eqStr "dec_arr" then
        match value with
        | .vlist xs =>
          if xs.all pyIsInt then .ok ()
          else .error "Argument value is not a list of integers."
        | _ => .error "Argument value is not a list."
      else if vtype.eqStr "dec" then
        if pyIsInt value then .ok () else .error "Argument value is not an integer."
      else if vtype.eqStr "str" || vtype.eqStr "cdata" then
        if value.isStr then .ok () else .error "Argument value is not a string."
      else .ok ()
    | _ => .error "args is not a list of tuples of length 3."
  | _ => .error "args is not a list of tuples."

/-- The spec's acceptance condition for an argument value, per declared type
("dec requires an integer, str/cdata require a string, dec_arr requires a
list whose every element is an integer").  Written from the spec's words, to
be compared with `validate_api_call_arguments`. -/
def shapeMatches (t : String) (value : PyVal) : Bool :=
  if t = "dec" then pyIsInt value
  else if t = "str" then value.isStr
  else if t = "cdata" then value.isStr
  else if t = "dec_arr" then
    match value with
    | .vlist xs => xs.all pyIsInt
    | _ => false
  else false

/-- The spec's acceptance condition for a whole triple: 3 elements, non-empty
string name, declared type among str/dec/cdata/dec_arr, value shape matching
the declared type.  Written from the spec's words. -/
def argTripleOk (args : PyVal) : Bool :=
  match args with
  | .vtuple [name, value, vtype] =>
    (match name with
     | .vstr s => s ≠ ""
     | _ => false) &&
    (match vtype with
     | .vstr t =>
       (t = "str" || t = "dec" || t = "cdata" || t = "dec_arr")
         && shapeMatches t value
     | _ => false)
  | _ => false

/-- The fields of a `pywam` `ApiCall` that `App.validate_api_call` inspects,
each dynamically typed (the GUI passes whatever was built from user input). -/
structure ApiCall where
  api_type : PyVal
  method : PyVal
  args : PyVal
  pwron : PyVal
  user_check : PyVal
  timeout_multiple : PyVal

/-- Embeds `App.validate_api_call` (`app.py`): each `raise` is an `Except.error`
with the source's message, checks in source order.  The membership test
`api_type not in ("UIC", "CPM")` compares with `==` against each literal. -/
def validate_api_call (c : ApiCall) : Except String Unit :=
  if !(c.api_type.eqStr "UIC" || c.api_type.eqStr "CPM") then
    .error "API type not supported."
  else if !pyTruthy c.method then .error "No method specified."
  else if !c.args.isList then .error "args is not a list."
  else if !pyIsBool c.pwron then .error "pwron is not a boolean."
  else if !pyIsBool c.user_check then .error "user_check is not a boolean."
  else if !pyIsInt c.timeout_multiple then
    .error "timeout_multiple is not an integer."
  else if pyGtInt c.timeout_multiple 5 then
    .error "timeout_multiple is too high."
  else .ok ()

/-- Embeds `App.event_receiver` (`app.py`): append the event, then if the history
holds more than 1000 events delete the oldest (`del self.events[0]`) and set
the truncation flag.  Returns the new history and the flag handed to
`self.gui.events.new_event`. -/
def event_receiver {α : Type} (events : List α) (e : α) : List α × Bool :=
  let evs := events ++ [e]
  if evs.length > 1000 then (evs.tail, true) else (evs, false)

/-- Deliver a sequence of events to `event_receiver`, starting from history
`hist`; returns the final history and the per-call truncation flags in
delivery order. -/
def deliver_all {α : Type} (hist : List α) : List α → List α × List Bool
  | [] => (hist, [])
  | e :: es =>
    let r := event_receiver hist e
    let rest := deliver_all r.1 es
    (rest.1, r.2 :: rest.2)

/-- The five operations of `App.async_connect`'s `try` block, in source
order: `Speaker(ip, port)`, the two `register_subscriber` calls,
`await self.speaker.connect()`, `await self.speaker.update()`. -/
inductive ConnectStep where
  | construct
  | regState
  | regEvent
  | connectCall
  | updateCall
deriving DecidableEq, Repr

/-- A Python exception as distinguished by the connect/disconnect model: the
`AttributeError` raised by touching a never-assigned attribute, an exception
raised by one of the connect steps, or any other error (e.g. raised by
`client.disconnect()` during teardown). -/
inductive PyErr where
  | attrError (name : String)
  | stepError (s : ConnectStep)
  | otherError (msg : String)
deriving DecidableEq, Repr

/-- The object `Speaker(ip, port)` would construct.  Any Python object is
truthy, which the connect model uses. -/
structure SpeakerH where
  ip : String
  port : Int
deriving DecidableEq, Repr

/-- The mediator's `speaker` attribute: `none` = the attribute was never
assigned (access raises `AttributeError`), `some none` = `self.speaker is
None`, `some (some h)` = a speaker handle. -/
abbrev SpkAttr : Type := Option (Option SpeakerH)

/-- Environment of one `async_connect` run: which step (if any) is the first
to raise, whether `client.disconnect()` would raise during cleanup, and the
handle construction would yield. -/
structure ConnEnv where
  failAt : Option ConnectStep
  teardownFails : Bool
  handle : SpeakerH

/-- Embeds `App.async_connect` (`app.py`).  The `try` block runs the five steps in
order, assigning `self.speaker` as the first step; on an exception the
`except` block checks `if self.speaker:` (raising `AttributeError` when the
attribute was never assigned), best-effort disconnects inside
`contextlib.suppress(Exception)`, sets `self.speaker = None` and re-raises.
Returns the resulting `speaker` attribute and the exception (if any) that
propagates to the caller. -/
def async_connect (env : ConnEnv) (spk0 : SpkAttr) : SpkAttr × Option PyErr :=
  let tryRun : Except (SpkAttr × PyErr) SpkAttr :=
    if env.failAt = some .construct then .error (spk0, .stepError .construct)
    else
      let spk1 : SpkAttr := some (some env.handle)
      if env.failAt = some .regState then .error (spk1, .stepError .regState)
      else if env.failAt = some .regEvent then .error (spk1, .stepError .regEvent)
      else if env.failAt = some .connectCall then
        .error (spk1, .stepError .connectCall)
      else if env.failAt = some .updateCall then
        .error (spk1, .stepError .updateCall)
      else .ok spk1
  match tryRun with
  | .ok spk => (spk, none)
  | .error (spk, orig) =>
    match spk with
    | none => (none, some (.attrError "speaker"))
    | some none => (some none, some orig)
    | some (some _) =>
      let teardown : Except PyErr Unit :=
        if env.teardownFails then .error (.otherError "disconnect failed")
        else .ok ()
      let _suppressed := teardown
      (some none, some orig)

/-- Embeds `App.async_disconnect` (`app.py`): `self.speaker.client.disconnect()`
inside `contextlib.suppress(Exception)` — raising `AttributeError` when the
attribute is missing or `None`, or the teardown error — then
`self.speaker = None`.  Returns the resulting attribute and the exception
propagating to the caller (always none: everything is suppressed). -/
def async_disconnect (teardownFails : Bool) (spk0 : SpkAttr) : SpkAttr × Option PyErr :=
  let inner : Except PyErr Unit :=
    match spk0 with
    | none => .error (.attrError "speaker")
    | some none => .error (.attrError "client")
    | some (some _) =>
      if teardownFails then .error (.otherError "disconnect failed") else .ok ()
  let _suppressed := inner
  (some none, none)

/-- The attribute state of a freshly constructed `App` (`App.__init__` only
assigns `self.settings`; `gui`, `aio_loop`, `speaker` and `events` are
class-level annotations that no code assigns at construction). -/
structure AppAttrs where
  speaker : SpkAttr
  events : Option (List Nat)
  gui_set : Bool
  aio_loop_set : Bool

/-- Embeds `App.__init__` (`app.py`): only `self.settings` is created; every other
attribute remains unassigned. -/
def App.init : AppAttrs :=
  { speaker := none, events := none, gui_set := false, aio_loop_set := false }

/-- Embeds `self.events.append(event)` at the top of `App.event_receiver`, at the
attribute level: raises `AttributeError` when `events` was never assigned,
otherwise runs `event_receiver`. -/
def event_receiver_attr (evs : Option (List Nat)) (e : Nat) :
    Except PyErr (List Nat × Bool) :=
  match evs with
  | none => .error (.attrError "events")
  | some l => .ok (event_receiver l e)

/-- The `if self.speaker:` shutdown check at the end of `App.run`: raises
`AttributeError` when the attribute was never assigned, otherwise yields the
truthiness of the attribute. -/
def run_shutdown_check (spk : SpkAttr) : Except PyErr Bool :=
  match spk with
  | none => .error (.attrError "speaker")
  | some s => .ok s.isSome

/-- Embeds `Host` (`settings.py`): `NamedTuple` with fields `name`, `host`, `port`
(annotated `str`, `str`, `int`). -/
structure Host where
  name : String
  host : String
  port : Int
deriving DecidableEq, Repr

/-- A Python value as stored in the settings document (`settings.py`):
JSON-style strings, ints, lists and dicts, plus the bound method object
`host._asdict` that the `hosts` setter stores (the expression in the source
lacks call parentheses, so the method itself — carrying its `Host` — lands in
the document). -/
inductive PyObj where
  | pstr (s : String)
  | pint (n : Int)
  | plist (xs : List PyObj)
  | pdict (kvs : List (String × PyObj))
  | pmethod (h : Host)
deriving Repr

/-- The in-memory `_settings` dict: an insertion-ordered association list
with unique keys. -/
abbrev Doc : Type := List (String × PyObj)

/-- Python `d.get(k)`: `none` when the key is missing. -/
def dget (d : Doc) (k : String) : Option PyObj :=
  (d.find? (fun kv => kv.1 = k)).map (·.2)

/-- Python `d[k] = v`: replace the value under an existing key in place,
otherwise append the new pair. -/
def dset (d : Doc) (k : String) (v : PyObj) : Doc :=
  if d.any (fun kv => kv.1 = k) then
    d.map (fun kv => if kv.1 = k then (k, v) else kv)
  else d ++ [(k, v)]

mutual
/-- Whether `json.dump` can serialize the value: strings, ints, and lists or
dicts of serializable values; a bound method object is not serializable
(`json.dump` raises `TypeError`). -/
def serializable : PyObj → Bool
  | .pstr _ => true
  | .pint _ => true
  | .plist xs => serializableL xs
  | .pdict kvs => serializableD kvs
  | .pmethod _ => false

/-- All elements of a list serializable. -/
def serializableL : List PyObj → Bool
  | [] => true
  | x :: xs => serializable x && serializableL xs

/-- All values of a dict serializable. -/
def serializableD : List (String × PyObj) → Bool
  | [] => true
  | (_, v) :: kvs => serializable v && serializableD kvs
end

/-- What opening and `json.load`-ing the settings file can encounter: the
file is absent (`FileNotFoundError`), present but with content `json.load`
rejects (raising `err`), or present with well-formed content parsing to a
document. -/
inductive FileState where
  | absent
  | malformed (err : String)
  | content (d : Doc)

/-- Embeds `DEFAULT_SETTINGS` (`settings.py`). -/
def DEFAULT_SETTINGS : Doc :=
  [("hosts", .plist [.pdict [("name", .pstr "Speaker"),
                             ("host", .pstr "192.168.1.100"),
                             ("port", .pint 55001)]]),
   ("loglevel", .pint 1),
   ("default_host", .pint 0)]

/-- Embeds `Settings.load_settings` (`settings.py`): the parsed file on success,
`DEFAULT_SETTINGS` on `FileNotFoundError`, and `{"ERROR": str(err)}` on any
other exception. -/
def load_settings : FileState → Doc
  | .absent => DEFAULT_SETTINGS
  | .malformed err => [("ERROR", .pstr err)]
  | .content d => d

/-- The mediator's settings state: the in-memory `_settings` document and
the settings file on disk. -/
structure SettingsState where
  mem : Doc
  file : FileState

/-- The load-time parse error left behind by a failed save:
`open(SETTINGS_FILE, "w")` truncates the file before anything is written, and
`json.dump` streams the serialization, so by the time it raises `TypeError`
on a non-serializable value only a partial prefix of the document is on disk.
That prefix is not valid JSON, so a later `json.load` raises; this constant
abstracts that decode error's message (its exact wording depends on the
prefix and matters to no claim — what matters is that the old content is
destroyed and the file no longer parses). -/
def partial_write_error : String :=
  "Expecting value (truncated partial dump left by failed save)"

/-- Embeds `Settings.save_settings` (`settings.py`): `open(.., "w")` truncates
the file, then `json.dump` writes the in-memory document.  On a document with
a non-serializable value `json.dump` raises `TypeError` after streaming a
partial prefix, so the error branch leaves the file malformed (old content
destroyed) and returns the `TypeError` message; the in-memory document is
untouched either way. -/
def save_settings (st : SettingsState) : SettingsState × Option String :=
  if serializableD st.mem then ({ st with file := .content st.mem }, none)
  else ({ st with file := .malformed partial_write_error },
        some "Object of type method is not JSON serializable")

/-- Embeds `Host(**host)`: keyword-expanding a stored value into the `Host`
constructor.  Succeeds exactly on a dict with precisely the keys `name`,
`host`, `port` (of the `NamedTuple`'s annotated types); anything else —
in particular a stored bound method — raises `TypeError`. -/
def host_from_obj : PyObj → Except String Host
  | .pdict kvs =>
    match dget kvs "name", dget kvs "host", dget kvs "port" with
    | some (.pstr n), some (.pstr h), some (.pint p) =>
      if kvs.length = 3 then .ok ⟨n, h, p⟩
      else .error "unexpected keyword argument"
    | _, _, _ => .error "missing required argument"
  | _ => .error "argument after ** must be a mapping"

/-- Embeds `Settings.hosts` getter (`settings.py`):
`[Host(**host) for host in self._settings.get("hosts", [])]`; raises when an
element cannot be expanded into `Host`. -/
def hosts (d : Doc) : Except String (List Host) :=
  match dget d "hosts" with
  | none => .ok []
  | some (.plist xs) => xs.mapM host_from_obj
  | some _ => .error "object is not a list of mappings"

/-- Embeds `Settings.hosts` setter (`settings.py`) **as written in the source**:
stores `[host._asdict for host in hosts]` — note the missing call
parentheses, so each element is the bound method object, not the dict — then
`save_settings`. -/
def set_hosts (st : SettingsState) (hs : List Host) : SettingsState × Option String :=
  save_settings { st with mem := dset st.mem "hosts" (.plist (hs.map .pmethod)) }

/-- Embeds `Settings.default_host` getter: `self._settings.get("default_host", 0)`. -/
def default_host (d : Doc) : PyObj :=
  (dget d "default_host").getD (.pint 0)

/-- Embeds `Settings.default_host` setter (`settings.py`): reject non-ints, reject
values outside `[0, len(self.hosts))` (the bound evaluates the `hosts`
getter; `or` short-circuits, so `len` is not evaluated for negatives),
otherwise store and `save_settings`.  A raise before the store leaves the
state unchanged. -/
def set_default_host (st : SettingsState) (v : PyObj) : SettingsState × Option String :=
  match v with
  | .pint n =>
    if n < 0 then (st, some "Default host must be one of the hosts")
    else
      match hosts st.mem with
      | .error e => (st, some e)
      | .ok hs =>
        if n ≥ hs.length then (st, some "Default host must be one of the hosts")
        else save_settings { st with mem := dset st.mem "default_host" (.pint n) }
  | _ => (st, some "Default host must be an integer")

/-- Embeds `Settings.loglevel` getter: `self._settings.get("loglevel", 1)`. -/
def loglevel (d : Doc) : PyObj :=
  (dget d "loglevel").getD (.pint 1)

/-- Embeds `Settings.loglevel` setter (`settings.py`): reject non-ints, reject
values outside `-1 < loglevel < 5`, otherwise store and `save_settings`. -/
def set_loglevel (st : SettingsState) (v : PyObj) : SettingsState × Option String :=
  match v with
  | .pint n =>
    if !(-1 < n && n < 5) then (st, some "loglevel must be between 0 and 4")
    else save_settings { st with mem := dset st.mem "loglevel" (.pint n) }
  | _ => (st, some "loglevel must be an integer")

/-- Embeds `Settings.error` getter: `self._settings.get("ERROR")`. -/
def settings_error (d : Doc) : Option PyObj :=
  dget d "ERROR"

/-- No two consecutive underscores in a digit run (Python's integer literal
grammar rejects `1__0`). -/
def noDoubleUnderscore : List Char → Bool
  | c1 :: c2 :: rest =>
    !(c1 = '_' && c2 = '_') && noDoubleUnderscore (c2 :: rest)
  | _ => true

/-- A valid unsigned digit run for Python's `int(str)`: non-empty, ASCII
digits with single underscores strictly between digits. -/
def goodDigitRun (cs : List Char) : Bool :=
  !cs.isEmpty
    && cs.all (fun c => c.isDigit || c = '_')
    && (match cs.head? with
        | some c => c.isDigit
        | none => false)
    && (match cs.getLast? with
        | some c => c.isDigit
        | none => false)
    && noDoubleUnderscore cs

/-- Drop leading whitespace characters. -/
def dropLeadingWs : List Char → List Char
  | [] => []
  | c :: cs => if c.isWhitespace then dropLeadingWs cs else c :: cs

/-- Python `s.strip()`: remove leading and trailing whitespace. -/
def pyStrip (s : String) : String :=
  ⟨(dropLeadingWs (dropLeadingWs s.data.reverse).reverse)⟩

/-- Python `s.split(",")` on the character list: every maximal run between
commas, so the empty string yields one empty piece and each comma adds a
piece. -/
def splitComma : List Char → List (List Char)
  | [] => [[]]
  | c :: rest =>
    let r := splitComma rest
    if c = ',' then [] :: r
    else
      match r with
      | g :: gs => (c :: g) :: gs
      | [] => [[c]]

/-- Python `s.split(",")`. -/
def pySplit (s : String) : List String :=
  (splitComma s.data).map (fun cs => ⟨cs⟩)

/-- Numeric value of a digit run, ignoring underscores. -/
def digitsVal (cs : List Char) : Int :=
  (cs.filter (· ≠ '_')).foldl (fun a c => a * 10 + ((c.toNat : Int) - 48)) 0

/-- Python `int(s)` on a string: strip surrounding whitespace, allow one
leading sign, then require a valid digit run; `none` models the `ValueError`
raised on anything else. -/
def pyInt (s : String) : Option Int :=
  match (pyStrip s).data with
  | '+' :: rest => if goodDigitRun rest then some (digitsVal rest) else none
  | '-' :: rest => if goodDigitRun rest then some (-digitsVal rest) else none
  | cs => if goodDigitRun cs then some (digitsVal cs) else none

/-- The value computed by `ArgumentsDialog.add_argument` (`gui.py`) from the
value entry's text and the selected type: `dec_arr` splits on "," and parses
each piece with `int`, `dec` parses the stripped text with `int`, other types
keep the stripped text; any parse exception is caught and the value silently
replaced by the empty string. -/
def parse_arg_value (valueStr vtype : String) : PyVal :=
  if vtype = "dec_arr" then
    match (pySplit valueStr).mapM pyInt with
    | some ns => .vlist (ns.map PyVal.vint)
    | none => .vstr ""
  else if vtype = "dec" then
    match pyInt (pyStrip valueStr) with
    | some n => .vint n
    | none => .vstr ""
  else .vstr (pyStrip valueStr)

/-- Embeds `ArgumentsDialog.add_argument` (`gui.py`): strip the name, compute the
value via `parse_arg_value`, then run `App.validate_api_call_arguments`; on
validation failure show the error and leave `self.result` unset (`none`),
otherwise store the triple. -/
def add_argument (name0 valueStr vtype : String) : Option PyVal :=
  let name := pyStrip name0
  let value := parse_arg_value valueStr vtype
  let args : PyVal := .vtuple [.vstr name, value, .vstr vtype]
  match validate_api_call_arguments args with
  | .ok _ => some args
  | .error _ => none

/-- C3: the write-through of the `hosts` setter fails on any non-empty list:
the stored elements are bound method objects (`host._asdict` lacks call
parentheses), `json.dump` raises `TypeError` after `open(.., "w")` already
truncated the settings file — so the file ends up holding an unparsable
partial prefix, no longer any well-formed document — and even the in-memory
document no longer round-trips through the `hosts` accessor. -/
theorem c3_hosts_write_through_fails :
    (set_hosts ⟨DEFAULT_SETTINGS, .content DEFAULT_SETTINGS⟩
        [⟨"Speaker", "192.168.1.100", 55001⟩]).2 =
      some "Object of type method is not JSON serializable" ∧
    (set_hosts ⟨DEFAULT_SETTINGS, .content DEFAULT_SETTINGS⟩
        [⟨"Speaker", "192.168.1.100", 55001⟩]).1.file =
      .malformed partial_write_error ∧
    (∀ d : Doc, (set_hosts ⟨DEFAULT_SETTINGS, .content DEFAULT_SETTINGS⟩
        [⟨"Speaker", "192.168.1.100", 55001⟩]).1.file ≠ .content d) ∧
    hosts (set_hosts ⟨DEFAULT_SETTINGS, .content DEFAULT_SETTINGS⟩
        [⟨"Speaker", "192.168.1.100", 55001⟩]).1.mem =
      .error "argument after ** must be a mapping" := by
  have hfile : (set_hosts ⟨DEFAULT_SETTINGS, .content DEFAULT_SETTINGS⟩
      [⟨"Speaker", "192.168.1.100", 55001⟩]).1.file =
        .malformed partial_write_error := rfl
  refine ⟨rfl, hfile, ?_, rfl⟩
  intro d h
  rw [hfile] at h
  exact FileState.noConfusion h

/-- C4: loading with the settings file absent yields the built-in default
document (one host, `default_host = 0`, `loglevel = 1`); loading malformed
content yields a document whose only entry is the error string, after which
`hosts` is empty and the other accessors return their defaults. -/
theorem c4_load_defaults_and_malformed :
    (load_settings .absent = DEFAULT_SETTINGS ∧
     hosts (load_settings .absent) = .ok [⟨"Speaker", "192.168.1.100", 55001⟩] ∧
     default_host (load_settings .absent) = .pint 0 ∧
     loglevel (load_settings .absent) = .pint 1) ∧
    ∀ err : String,
      load_settings (.malformed err) = [("ERROR", .pstr err)] ∧
      settings_error (load_settings (.malformed err)) = some (.pstr err) ∧
      hosts (load_settings (.malformed err)) = .ok [] ∧
      default_host (load_settings (.malformed err)) = .pint 0 ∧
      loglevel (load_settings (.malformed err)) = .pint 1 :=
  ⟨⟨rfl, rfl, rfl, rfl⟩, fun _ => ⟨rfl, rfl, rfl, rfl, rfl⟩⟩

/-- C10: a freshly constructed mediator has neither the event history nor the
session handle assigned; the first `event_receiver` call raises
`AttributeError`, and so does the shutdown check in `run` when connect was
never called. -/
theorem c10_unassigned_attributes (e : Nat) :
    App.init.speaker = none ∧
    App.init.events = none ∧
    event_receiver_attr App.init.events e = .error (.attrError "events") ∧
    run_shutdown_check App.init.speaker = .error (.attrError "speaker") :=
  ⟨rfl, rfl, rfl, rfl⟩

/-- C8: `async_disconnect` never raises (teardown errors and the
`AttributeError` of a missing/cleared handle are suppressed), always leaves
the handle cleared, and running it again from the resulting state produces
the same state. -/
theorem c8_disconnect_idempotent (tf tf' : Bool) (spk0 : SpkAttr) :
    async_disconnect tf spk0 = (some none, none) ∧
    async_disconnect tf' (async_disconnect tf spk0).1 = async_disconnect tf spk0 :=
  ⟨rfl, rfl⟩

/-- C2 counterexample: when handle construction fails on a fresh mediator
(the `speaker` attribute never assigned), the `except` block's
`if self.speaker:` raises `AttributeError`, so the caller receives that
`AttributeError` and not the original construction failure. -/
theorem c2_counterexample :
    async_connect ⟨some .construct, false, ⟨"1.2.3.4", 55001⟩⟩ none =
      (none, some (.attrError "speaker")) ∧
    (async_connect ⟨some .construct, false, ⟨"1.2.3.4", 55001⟩⟩ none).2 ≠
      some (.stepError .construct) :=
  ⟨rfl, by decide⟩

/-- C2 (amended): for every failing connect run, except when construction
itself fails on a never-assigned `speaker` attribute, the handle ends cleared
(`None`), teardown errors are swallowed (the environment's `teardownFails` is
arbitrary) and the original step failure is re-raised; in the excepted corner
the attribute stays unassigned and an `AttributeError` propagates instead. -/
theorem c2_connect_failure_cleanup (env : ConnEnv) (spk0 : SpkAttr) (s : ConnectStep)
    (hfail : env.failAt = some s) :
    (¬(s = .construct ∧ spk0 = none) →
       async_connect env spk0 = (some none, some (.stepError s))) ∧
    (s = .construct ∧ spk0 = none →
       async_connect env spk0 = (none, some (.attrError "speaker"))) := by
  obtain ⟨fa, tf, h⟩ := env
  simp only at hfail
  subst hfail
  cases s <;> rcases spk0 with _ | _ | _ <;>
    constructor <;> intro hcase <;> first | rfl | simp_all

/-- Witness for `c2_connect_failure_cleanup` at a concrete run: event
subscription registration fails with the handle assigned. -/
theorem c2_connect_failure_cleanup_witness :
    async_connect ⟨some .regEvent, true, ⟨"1.2.3.4", 55001⟩⟩ (some none) =
      (some none, some (.stepError .regEvent)) :=
  (c2_connect_failure_cleanup ⟨some .regEvent, true, ⟨"1.2.3.4", 55001⟩⟩
    (some none) .regEvent rfl).1 (by decide)

/-- C6: with every other field as given, `validate_api_call` never accepts a
call whose `timeout_multiple` is 6 — and it rejects 6 with the "too high"
error precisely when the same call with `timeout_multiple = 5` is accepted,
i.e. 5 is the largest accepted value whenever the other fields validate. -/
theorem c6_timeout_boundary (c : ApiCall) :
    validate_api_call { c with timeout_multiple := .vint 6 } ≠ .ok () ∧
    (validate_api_call { c with timeout_multiple := .vint 5 } = .ok () ↔
     validate_api_call { c with timeout_multiple := .vint 6 } =
       .error "timeout_multiple is too high.") := by
  obtain ⟨a, m, ar, p, u, t⟩ := c
  simp only [validate_api_call, pyIsInt, pyGtInt]
  split_ifs <;> simp_all

set_option maxHeartbeats 1600000 in
/-- Helper for C7: on a genuine 3-element tuple, the source's validator
accepts exactly the triples the spec describes. -/
theorem validate_triple_iff (n v t : PyVal) :
    validate_api_call_arguments (.vtuple [n, v, t]) = .ok () ↔
      argTripleOk (.vtuple [n, v, t]) = true := by
  cases n with
  | vstr s =>
    by_cases hs : s = ""
    · subst hs
      simp [validate_api_call_arguments, argTripleOk, pyTruthy, PyVal.isStr]
    · cases t with
      | vstr tt =>
        by_cases h1 : tt = "dec"
        · subst h1
          cases v <;>
            simp [validate_api_call_arguments, argTripleOk, shapeMatches,
              PyVal.eqStr, PyVal.isStr, PyVal.isList, pyIsInt, pyTruthy, hs]
        · by_cases h2 : tt = "str"
          · subst h2
            cases v <;>
              simp [validate_api_call_arguments, argTripleOk, shapeMatches,
                PyVal.eqStr, PyVal.isStr, PyVal.isList, pyIsInt, pyTruthy, hs]
          · by_cases h3 : tt = "cdata"
            · subst h3
              cases v <;>
                simp [validate_api_call_arguments, argTripleOk, shapeMatches,
                  PyVal.eqStr, PyVal.isStr, PyVal.isList, pyIsInt, pyTruthy, hs]
            · by_cases h4 : tt = "dec_arr"
              · subst h4
                cases v <;>
                  simp [validate_api_call_arguments, argTripleOk, shapeMatches,
                    PyVal.eqStr, PyVal.isStr, PyVal.isList, pyIsInt, pyTruthy, hs]
              · simp [validate_api_call_arguments, argTripleOk, shapeMatches,
                  PyVal.eqStr, PyVal.isStr, pyTruthy, hs, h1, h2, h3, h4]
      | vint k => simp [validate_api_call_arguments, argTripleOk, PyVal.isStr, pyTruthy, hs]
      | vbool b => simp [validate_api_call_arguments, argTripleOk, PyVal.isStr, pyTruthy, hs]
      | vlist xs => simp [validate_api_call_arguments, argTripleOk, PyVal.isStr, pyTruthy, hs]
      | vtuple xs => simp [validate_api_call_arguments, argTripleOk, PyVal.isStr, pyTruthy, hs]
      | vnone => simp [validate_api_call_arguments, argTripleOk, PyVal.isStr, pyTruthy, hs]
  | vint k => simp [validate_api_call_arguments, argTripleOk, PyVal.isStr]
  | vbool b => simp [validate_api_call_arguments, argTripleOk, PyVal.isStr]
  | vlist xs => simp [validate_api_call_arguments, argTripleOk, PyVal.isStr]
  | vtuple xs => simp [validate_api_call_arguments, argTripleOk, PyVal.isStr]
  | vnone => simp [validate_api_call_arguments, argTripleOk, PyVal.isStr]

/-- C7: `validate_api_call_arguments` accepts exactly the triples with 3
elements, a non-empty string name, a declared type among str/dec/cdata/
dec_arr, and a value whose shape matches the declared type; in particular the
spec's four examples validate/reject as stated. -/
theorem c7_argument_validation :
    (∀ a : PyVal, validate_api_call_arguments a = .ok () ↔ argTripleOk a = true) ∧
    validate_api_call_arguments (.vtuple [.vstr "vol", .vint 10, .vstr "dec"]) =
      .ok () ∧
    validate_api_call_arguments (.vtuple [.vstr "vol", .vstr "10", .vstr "dec"]) =
      .error "Argument value is not an integer." ∧
    validate_api_call_arguments
        (.vtuple [.vstr "x", .vlist [.vint 1, .vint 2, .vint 3], .vstr "dec_arr"]) =
      .ok () ∧
    validate_api_call_arguments
        (.vtuple [.vstr "x", .vlist [.vint 1, .vstr "a"], .vstr "dec_arr"]) =
      .error "Argument value is not a list of integers." := by
  refine ⟨?_, rfl, rfl, rfl, rfl⟩
  intro a
  match a with
  | .vtuple [n, v, t] => exact validate_triple_iff n v t
  | .vtuple [] => simp [validate_api_call_arguments, argTripleOk]
  | .vtuple [x] => simp [validate_api_call_arguments, argTripleOk]
  | .vtuple [x, y] => simp [validate_api_call_arguments, argTripleOk]
  | .vtuple (x :: y :: z :: w :: rest) => simp [validate_api_call_arguments, argTripleOk]
  | .vstr s => simp [validate_api_call_arguments, argTripleOk]
  | .vint k => simp [validate_api_call_arguments, argTripleOk]
  | .vbool b => simp [validate_api_call_arguments, argTripleOk]
  | .vlist xs => simp [validate_api_call_arguments, argTripleOk]
  | .vnone => simp [validate_api_call_arguments, argTripleOk]

/-- C9: when the value text cannot be parsed as the selected numeric type
(`dec`: unparsable integer; `dec_arr`: a comma-separated piece unparsable),
`add_argument` silently replaces the value with the empty string before the
shape check; the shape check then rejects the triple, so no argument is ever
stored with a coerced empty value for a numeric type. -/
theorem c9_numeric_coercion (name0 valueStr : String) :
    (pyInt (pyStrip valueStr) = none →
       parse_arg_value valueStr "dec" = .vstr "" ∧
       add_argument name0 valueStr "dec" = none) ∧
    ((pySplit valueStr).mapM pyInt = none →
       parse_arg_value valueStr "dec_arr" = .vstr "" ∧
       add_argument name0 valueStr "dec_arr" = none) := by
  constructor
  · intro h
    have hv : parse_arg_value valueStr "dec" = .vstr "" := by
      simp [parse_arg_value, h]
    refine ⟨hv, ?_⟩
    by_cases hn : pyStrip name0 = ""
    · simp [add_argument, hv, hn, validate_api_call_arguments, PyVal.isStr, pyTruthy]
    · simp [add_argument, hv, hn, validate_api_call_arguments, PyVal.isStr, pyTruthy,
        PyVal.eqStr, PyVal.isList, pyIsInt]
  · intro h
    have h' : List.mapM.loop pyInt (pySplit valueStr) [] = none := h
    have hv : parse_arg_value valueStr "dec_arr" = .vstr "" := by
      simp [parse_arg_value, h']
    refine ⟨hv, ?_⟩
    by_cases hn : pyStrip name0 = ""
    · simp [add_argument, hv, hn, validate_api_call_arguments, PyVal.isStr, pyTruthy]
    · simp [add_argument, hv, hn, validate_api_call_arguments, PyVal.isStr, pyTruthy,
        PyVal.eqStr, PyVal.isList, pyIsInt]

/-- Witness for `c9_numeric_coercion` at the concrete entry "abc": unparsable
for both numeric types, coerced to the empty string, and never added. -/
theorem c9_numeric_coercion_witness :
    (parse_arg_value "abc" "dec" = .vstr "" ∧ add_argument "vol" "abc" "dec" = none) ∧
    (parse_arg_value "abc" "dec_arr" = .vstr "" ∧
     add_argument "vol" "abc" "dec_arr" = none) :=
  ⟨(c9_numeric_coercion "vol" "abc").1 (by decide),
   (c9_numeric_coercion "vol" "abc").2 (by decide)⟩

/-- Step lemma for C1: with the history full, one delivery drops the oldest
event and reports truncation. -/
theorem event_receiver_full {α : Type} (hist : List α) (e : α)
    (h : hist.length = 1000) :
    event_receiver hist e = ((hist ++ [e]).tail, true) := by
  have : 1000 < (hist ++ [e]).length := by simp [h]
  simp [event_receiver, this]
  omega

/-- Step lemma for C1: with room left, one delivery just appends and reports
no truncation. -/
theorem event_receiver_not_full {α : Type} (hist : List α) (e : α)
    (h : hist.length < 1000) :
    event_receiver hist e = (hist ++ [e], false) := by
  have : ¬ 1000 < (hist ++ [e]).length := by simp; omega
  simp [event_receiver, this]
  omega

/-- Helper for C1: from any start history of at most 1000 events, the final
history is the suffix of old history and delivered events that fits the
capacity, and the flag of the i-th delivery is set exactly when the history
was already full when it arrived. -/
theorem deliver_all_spec {α : Type} (es : List α) :
    ∀ hist : List α, hist.length ≤ 1000 →
      (deliver_all hist es).1 = (hist ++ es).drop (hist.length + es.length - 1000) ∧
      (deliver_all hist es).2 =
        (List.range es.length).map (fun i => decide (1000 ≤ hist.length + i)) := by
  induction es with
  | nil =>
    intro hist h
    refine ⟨?_, rfl⟩
    simp [deliver_all, Nat.sub_eq_zero_of_le h]
  | cons e es ih =>
    intro hist h
    have hunfold : deliver_all hist (e :: es) =
        ((deliver_all (event_receiver hist e).1 es).1,
         (event_receiver hist e).2 :: (deliver_all (event_receiver hist e).1 es).2) := rfl
    by_cases hc : hist.length = 1000
    · obtain ⟨hd, tl, rfl⟩ : ∃ hd tl, hist = hd :: tl := by
        cases hist with
        | nil => simp at hc
        | cons hd tl => exact ⟨hd, tl, rfl⟩
      have htl : tl.length = 999 := by simpa using hc
      have htail : ((hd :: tl) ++ [e]).tail = tl ++ [e] := rfl
      have hrec := ih (tl ++ [e]) (by simp [htl])
      rw [hunfold, event_receiver_full _ _ hc, htail]
      refine ⟨?_, ?_⟩
      · rw [hrec.1]
        have hidx : (tl ++ [e]).length + es.length - 1000 = es.length := by
          simp [htl]
        have hidx2 : (hd :: tl).length + (e :: es).length - 1000 = es.length + 1 := by
          simp [htl]
        rw [hidx, hidx2]
        show ((tl ++ [e]) ++ es).drop es.length = ((hd :: (tl ++ (e :: es)))).drop (es.length + 1)
        rw [List.drop_succ_cons, List.append_assoc]
        simp
      · rw [hrec.2]
        have hco1 : (fun i => decide (1000 ≤ (tl ++ [e]).length + i)) =
            (fun _ : ℕ => true) := by
          funext i
          simp [htl]
        have hco2 : (fun i => decide (1000 ≤ (hd :: tl).length + i)) =
            (fun _ : ℕ => true) := by
          funext i
          simp [htl]
        rw [hco1, hco2]
        simp [List.replicate_succ]
    · have hlt : hist.length < 1000 := by omega
      have hrec := ih (hist ++ [e]) (by simp; omega)
      rw [hunfold, event_receiver_not_full _ _ hlt]
      refine ⟨?_, ?_⟩
      · rw [hrec.1]
        have hidx : (hist ++ [e]).length + es.length - 1000 =
            hist.length + (e :: es).length - 1000 := by
          simp
          omega
        rw [hidx, List.append_assoc]
        rfl
      · rw [hrec.2]
        simp only [List.length_cons, List.range_succ_eq_map, List.map_cons, List.map_map]
        have h0 : decide (1000 ≤ hist.length + 0) = false := by
          simp
          omega
        have hfg : ((fun i => decide (1000 ≤ hist.length + i)) ∘ Nat.succ) =
            (fun i => decide (1000 ≤ (hist ++ [e]).length + i)) := by
          funext i
          simp [Function.comp]
          constructor <;> omega
        rw [hfg, h0]

/-- C1: starting from an empty history, after delivering any sequence of
events the history holds the last `min length 1000` events (each append past
1000 evicts exactly the oldest, so the retained part is the suffix), and the
flag passed to the GUI on the i-th append (0-based) is set exactly when at
least 1000 events were already delivered — first on the 1001st append. -/
theorem c1_bounded_history {α : Type} (es : List α) :
    (deliver_all ([] : List α) es).1 = es.drop (es.length - 1000) ∧
    (deliver_all ([] : List α) es).1.length = min es.length 1000 ∧
    (deliver_all ([] : List α) es).2 =
      (List.range es.length).map (fun i => decide (1000 ≤ i)) := by
  obtain ⟨h1, h2⟩ := deliver_all_spec es [] (by simp)
  simp only [List.nil_append, List.length_nil, Nat.zero_add] at h1 h2
  refine ⟨h1, ?_, by simpa using h2⟩
  rw [h1, List.length_drop]
  omega

/-- Helper for C5: a value just stored under a key is what the dict lookup
returns. -/
theorem dget_dset_self (d : Doc) (k : String) (v : PyObj) :
    dget (dset d k v) k = some v := by
  induction d with
  | nil => simp [dget, dset]
  | cons kv d ih =>
    by_cases hk : kv.1 = k
    · simp [dget, dset, List.any_cons, hk]
    · by_cases hany : d.any (fun kv => kv.1 = k)
      · simp only [dget, dset, List.any_cons, hk, hany] at ih ⊢
        simpa [List.find?, hk] using ih
      · simp only [dget, dset, List.any_cons, hk, hany] at ih ⊢
        simpa [List.find?, hk] using ih

/-- Helper for C5: saving never changes the in-memory document. -/
theorem save_settings_mem (st : SettingsState) : (save_settings st).1.mem = st.mem := by
  unfold save_settings
  split_ifs <;> rfl

/-- C5: with the stored hosts readable as `hs`, assigning an integer outside
`[0, len(hosts))` to `default_host` (resp. outside `[0, 4]` to `loglevel`)
raises and returns the state unchanged — the raise happens before the store,
so the document and hence the accessor value are untouched — while an
integer inside the range is accepted: the document gets the new value and the
accessor reads it back. -/
theorem c5_setter_range_validation (st : SettingsState) (n : Int) (hs : List Host)
    (hh : hosts st.mem = .ok hs) :
    (¬(0 ≤ n ∧ n < (hs.length : Int)) →
       set_default_host st (.pint n) =
         (st, some "Default host must be one of the hosts")) ∧
    ((0 ≤ n ∧ n < (hs.length : Int)) →
       (set_default_host st (.pint n)).1.mem = dset st.mem "default_host" (.pint n) ∧
       default_host (set_default_host st (.pint n)).1.mem = .pint n) ∧
    (∀ m : Int, ¬(0 ≤ m ∧ m ≤ 4) →
       set_loglevel st (.pint m) = (st, some "loglevel must be between 0 and 4")) ∧
    (∀ m : Int, (0 ≤ m ∧ m ≤ 4) →
       (set_loglevel st (.pint m)).1.mem = dset st.mem "loglevel" (.pint m) ∧
       loglevel (set_loglevel st (.pint m)).1.mem = .pint m) := by
  refine ⟨?_, ?_, ?_, ?_⟩
  · intro hout
    by_cases hneg : n < 0
    · simp [set_default_host, hneg]
    · have hge : n ≥ (hs.length : Int) := by omega
      simp [set_default_host, hneg, hh, hge]
  · intro hin
    have hneg : ¬ n < 0 := by omega
    have hge : ¬ n ≥ (hs.length : Int) := by omega
    have hmem : (set_default_host st (.pint n)).1.mem =
        dset st.mem "default_host" (.pint n) := by
      simp [set_default_host, hneg, hh, hge, save_settings_mem]
    refine ⟨hmem, ?_⟩
    rw [hmem]
    simp [default_host, dget_dset_self]
  · intro m hout
    have hcond : ¬(-1 < m ∧ m < 5) := by omega
    simp [set_loglevel, hcond]
  · intro m hin
    have hcond : (-1 < m ∧ m < 5) := by omega
    have hmem : (set_loglevel st (.pint m)).1.mem = dset st.mem "loglevel" (.pint m) := by
      simp [set_loglevel, hcond, save_settings_mem]
    refine ⟨hmem, ?_⟩
    rw [hmem]
    simp [loglevel, dget_dset_self]

/-- Witness for `c5_setter_range_validation` on the default document (one
host): `default_host := 5` is rejected with the state unchanged. -/
theorem c5_setter_range_validation_witness :
    set_default_host ⟨DEFAULT_SETTINGS, .content DEFAULT_SETTINGS⟩ (.pint 5) =
      (⟨DEFAULT_SETTINGS, .content DEFAULT_SETTINGS⟩,
       some "Default host must be one of the hosts") :=
  (c5_setter_range_validation ⟨DEFAULT_SETTINGS, .content DEFAULT_SETTINGS⟩ 5
    [⟨"Speaker", "192.168.1.100", 55001⟩] rfl).1 (by decide)
